import Mathlib

/-!
Verification of the Instagram downloader extraction pipeline
(`src/server/services/instagram.ts`, `src/unnamed/part_003`,
`src/server/storage.ts`) against its natural-language specification.

The TypeScript source is shallowly embedded: pure string manipulation is
translated to executable Lean functions over `String` / `List Char`,
the stateful orchestrator `extractMetadata` becomes a function from an
explicit cache value plus oracles for the browser page and the random
number generator to a result record, and JS exceptions become `Except`.
-/

namespace InstaDL

/-! ## Character and substring primitives

JS `String.prototype.includes` and the anchored regular expressions of
the source are modelled over `List Char`. -/

/-- Does the second list start with the first one? (prefix test used by
the anchored-regex and substring matchers). -/
def leadsWith : List Char → List Char → Bool
  | [], _ => true
  | _ :: _, [] => false
  | c :: cs, d :: ds => c = d && leadsWith cs ds

/-- Does `pat` occur as a contiguous substring of the second list?
Embeds JS `s.includes(pat)`. -/
def hasSub (pat : List Char) : List Char → Bool
  | [] => pat.isEmpty
  | c :: rest => leadsWith pat (c :: rest) || hasSub pat rest

/-- JS `s.includes(pat)` on strings. -/
def includesStr (s pat : String) : Bool := hasSub pat.data s.data

/-- Strip an exact literal from the front of a list, returning the
remainder, or `none` when the literal is not a prefix. -/
def dropLit : List Char → List Char → Option (List Char)
  | [], s => some s
  | _ :: _, [] => none
  | c :: cs, d :: ds => if c = d then dropLit cs ds else none

/-! ## URL classifier (`detectContentType`, `validateInstagramUrl`) -/

/-- The four content types of `InstagramMetadata.type`. -/
inductive ContentType
  | post
  | reel
  | story
  | igtv
deriving DecidableEq, Repr

/-- String form of a content type, as interpolated by `${metadata.type}`. -/
def contentTypeStr : ContentType → String
  | .post => "post"
  | .reel => "reel"
  | .story => "story"
  | .igtv => "igtv"

/-- Embedding of `InstagramService.detectContentType`: substring checks
in source order, defaulting to `post`. -/
def detectContentType (url : String) : ContentType :=
  if includesStr url "/reel/" then .reel
  else if includesStr url "/stories/" then .story
  else if includesStr url "/tv/" then .igtv
  else if includesStr url "/p/" then .post
  else .post

/-- JS regex `\w` character class (ASCII letters, digits, underscore). -/
def isWordChar (c : Char) : Bool := c.isAlphanum || c = '_'

/-- JS regex class `[\w-]`. -/
def isWordDash (c : Char) : Bool := isWordChar c || c = '-'

/-- JS regex class `[\w.-]`. -/
def isWordDotDash (c : Char) : Bool := isWordChar c || c = '.' || c = '-'

/-- Does the list start with a character of the given class? This is
exactly what an unanchored trailing `[class]+` in the source regexes
demands of the remainder of the URL. -/
def headIn (p : Char → Bool) : List Char → Bool
  | [] => false
  | c :: _ => p c

/-- A literal slash followed by at least one `[\w-]` character — the
`\/[\w-]+` suffix of the story pattern. -/
def slashThenWordDash : List Char → Bool
  | [] => false
  | c :: more => c = '/' && headIn isWordDash more

/-- Remainder check for the story pattern `[\w.-]+\/[\w-]+`: a
non-empty run of `[\w.-]` characters, a literal slash, then at least one
`[\w-]` character. Greedy matching is complete here because a slash is
not in the class `[\w.-]`. -/
def storyTail (s : List Char) : Bool :=
  !(s.takeWhile isWordDotDash).isEmpty &&
    slashThenWordDash (s.dropWhile isWordDotDash)

/-- The four scheme/host combinations generated by
`^https?:\/\/(www\.)?instagram\.com\/` in the source patterns. -/
def igHosts : List String :=
  ["http://instagram.com/", "http://www.instagram.com/",
   "https://instagram.com/", "https://www.instagram.com/"]

/-- One anchored pattern of `validateInstagramUrl`: some scheme/host
combination followed by the literal path segment `seg`, with the
remainder accepted by `tailOk`. -/
def matchShape (seg : String) (tailOk : List Char → Bool) (url : String) : Bool :=
  igHosts.any fun p =>
    match dropLit (p ++ seg).data url.data with
    | some rest => tailOk rest
    | none => false

/-- Embedding of `InstagramService.validateInstagramUrl`: the URL must
match one of the four anchored patterns (post, reel, story, igtv). -/
def validateInstagramUrl (url : String) : Bool :=
  matchShape "p/" (headIn isWordDash) url ||
  matchShape "reel/" (headIn isWordDash) url ||
  matchShape "stories/" storyTail url ||
  matchShape "tv/" (headIn isWordDash) url

/-! ## Declarative URL shapes

These predicates restate the spec's description of the four accepted
path shapes ("post, reel, story-with-username-segment, igtv") as plain
string decompositions, to be compared with the executable matcher. -/

/-- Every character of the list satisfies the class `p`. -/
def allChars (p : Char → Bool) (l : List Char) : Prop := ∀ c ∈ l, p c = true

/-- Spec shape: a post/reel/igtv style URL, i.e. scheme/host, the fixed
segment `seg`, then a non-empty `[\w-]` identifier and arbitrary rest. -/
def SimpleShape (seg : String) (url : String) : Prop :=
  ∃ p ∈ igHosts, ∃ id rest, url.data = (p ++ seg).data ++ id ++ rest ∧
    id ≠ [] ∧ allChars isWordDash id

/-- Spec shape: a story URL `/stories/<username>/<id>` with a non-empty
`[\w.-]` username segment and a non-empty `[\w-]` id. -/
def StoryShape (url : String) : Prop :=
  ∃ p ∈ igHosts, ∃ user id rest,
    url.data = (p ++ "stories/").data ++ user ++ '/' :: (id ++ rest) ∧
    user ≠ [] ∧ allChars isWordDotDash user ∧ id ≠ [] ∧ allChars isWordDash id

/-! ## Metadata record

Embedding of the `InstagramMetadata` interface. TS optional fields
become `Option`; `likes`/`comments`/`views` carry the (possibly random)
numbers the source stores in them. -/

structure InstagramMetadata where
  type : ContentType
  username : String
  caption : Option String
  thumbnail : String
  mediaUrls : List String
  likes : Option Nat
  comments : Option Nat
  views : Option Nat
  duration : Option String
  mediaCount : Option Nat
deriving DecidableEq, Repr

/-! ## Username parsing

Embeds the regex fallback chain
`(ogTitle || title).match(/^(.+?)\s+on\s+Instagram/) ||
 (ogTitle || title).match(/@(\w+)/) ||
 url.match(/instagram\.com\/([^\/]+)/)`
followed by `match[1].replace('@', '')`, and the story variant
`url.match(/instagram\.com\/stories\/([^\/]+)/)`. -/

/-- JS `s.replace('@', '')`: remove the first at-sign, if any. -/
def removeFirstAt : List Char → List Char
  | [] => []
  | c :: rest => if c = '@' then rest else c :: removeFirstAt rest

/-- Regex fragment `\s+lit`: one or more whitespace characters then the
literal `lit` (whose first character is never whitespace here, so
maximal munch is complete). -/
def wsThenLit (lit : List Char) (s : List Char) : Option (List Char) :=
  match s with
  | [] => none
  | c :: _ =>
    if c.isWhitespace then dropLit lit (s.dropWhile Char.isWhitespace) else none

/-- Does the remainder match `\s+on\s+Instagram`? -/
def onTail (s : List Char) : Bool :=
  match wsThenLit "on".data s with
  | some r => (wsThenLit "Instagram".data r).isSome
  | none => false

/-- Lazy capture loop for `^(.+?)\s+on\s+Instagram`: extend the capture
one character at a time (shortest match first). -/
def onInstaGo (acc : List Char) : List Char → Option (List Char)
  | [] => none
  | c :: rest =>
    if onTail rest then some (acc ++ [c]) else onInstaGo (acc ++ [c]) rest

/-- Group 1 of `^(.+?)\s+on\s+Instagram`, if the title matches. -/
def onInstaCapture (t : List Char) : Option (List Char) := onInstaGo [] t

/-- Group 1 of `@(\w+)`: the word run after the first at-sign that is
followed by at least one word character. -/
def atHandle : List Char → Option (List Char)
  | [] => none
  | c :: rest =>
    if c = '@' then
      let run := rest.takeWhile isWordChar
      if run.isEmpty then atHandle rest else some run
    else atHandle rest

/-- Group 1 of `lit([^\/]+)`: the non-empty run of non-slash characters
after the first occurrence of `lit` that is followed by such a run. -/
def capAfter (lit : List Char) : List Char → Option (List Char)
  | [] => none
  | c :: rest =>
    match dropLit lit (c :: rest) with
    | some r =>
      let cap := r.takeWhile (fun d => !(d = '/'))
      if cap.isEmpty then capAfter lit rest else some cap
    | none => capAfter lit rest

/-- The non-story username chain of `extractMetadata` (title regexes,
then a URL path segment, defaulting to the sentinel). -/
def generalUsername (ogTitle title url : String) : String :=
  let t := if ogTitle = "" then title else ogTitle
  let cap :=
    match onInstaCapture t.data with
    | some c => some c
    | none =>
      match atHandle t.data with
      | some c => some c
      | none => capAfter "instagram.com/".data url.data
  match cap with
  | some c => String.mk (removeFirstAt c)
  | none => "instagram_user"

/-- The story username: `url.match(/instagram\.com\/stories\/([^\/]+)/)`
with the sentinel fallback. -/
def storyUsername (url : String) : String :=
  match capAfter "instagram.com/stories/".data url.data with
  | some c => String.mk c
  | none => "instagram_user"

/-! ## Filename generation (`generateFilename`) -/

/-- Embedding of `InstagramService.generateFilename`. `Date.now()` is
passed in as `now`. The `_${index + 1}` suffix appears only when
`metadata.mediaCount` is set (truthy) and greater than 1. -/
def generateFilename (m : InstagramMetadata) (index : Nat) (now : Nat) : String :=
  let extension := if m.type = .reel || m.type = .igtv then "mp4" else "jpg"
  let sfx :=
    match m.mediaCount with
    | some c => if 1 < c then "_" ++ toString (index + 1) else ""
    | none => ""
  m.username ++ "_" ++ contentTypeStr m.type ++ "_" ++ toString now ++ sfx ++
    "." ++ extension

/-- Spec-side filename: `{username}_{type}_{unixMillis}[_{n}].{mp4|jpg}`
with `.mp4` for reel/igtv and `.jpg` otherwise, and the `_{n}` part
present exactly when `mediaCount > 1` (an absent count meaning 0). -/
def filenameSpec (m : InstagramMetadata) (index : Nat) (now : Nat) : String :=
  let stem := m.username ++ "_" ++ contentTypeStr m.type ++ "_" ++ toString now
  let stem2 := if 1 < m.mediaCount.getD 0 then stem ++ "_" ++ toString (index + 1) else stem
  if m.type = .reel ∨ m.type = .igtv then stem2 ++ ".mp4" else stem2 ++ ".jpg"

/-! ## Association-map primitives

The in-memory `Map` objects of the source (metadata cache, download
store) are modelled as association lists with JS `Map` get/set
semantics (set replaces in place, insertion order preserved). -/

def mapGet {α : Type} : List (String × α) → String → Option α
  | [], _ => none
  | (k, v) :: rest, key => if k = key then some v else mapGet rest key

def mapSet {α : Type} : List (String × α) → String → α → List (String × α)
  | [], key, v => [(key, v)]
  | (k, w) :: rest, key, v =>
    if k = key then (key, v) :: rest else (k, w) :: mapSet rest key v

/-! ## Errors, cache, and extraction oracles -/

/-- The typed failures thrown by the service. `wrapped` models the
`part_003` catch block re-throwing `Failed to extract Instagram
content: <message>`. -/
inductive ExtractErr
  | invalidUrl
  | ioFailure
  | noVideo
  | noImage
  | noStoryMedia
  | noThumb
  | wrapped (e : ExtractErr)
deriving DecidableEq, Repr

/-- One entry of the in-memory metadata cache. -/
structure CacheEntry where
  data : InstagramMetadata
  timestamp : Nat
deriving DecidableEq, Repr

/-- The `Map`-backed cache keyed by URL. -/
abbrev MetaCache := List (String × CacheEntry)

/-- `CACHE_TTL = 5 * 60 * 1000` (5 minutes, in milliseconds). -/
def CACHE_TTL : Nat := 5 * 60 * 1000

/-- Oracle for one browser-driven page visit: the Open-Graph tags read
from the DOM (empty string when the `$eval` failed), the video/image
candidates produced by the in-page `evaluate` script, and the URLs
captured by the story network-response listener. -/
structure PageData where
  title : String
  ogTitle : String
  ogDescription : String
  ogImage : String
  ogVideo : String
  videoUrls : List String
  imageUrls : List String
  respVideoUrls : List String
  respImageUrls : List String
deriving DecidableEq, Repr

/-- Oracle for the `Math.random()` draws of one `extractMetadata` call:
raw natural draws for likes/comments/views/duration, the `> 0.7` branch
for `mediaCount`, and the raw draw behind `Math.floor(random * 5)`. -/
structure Rand where
  likes : Nat
  comments : Nat
  views : Nat
  durSec : Nat
  multi : Bool
  extra : Nat
deriving DecidableEq, Repr

/-- JS `n.toString().padStart(2, '0')`. -/
def pad2 (n : Nat) : String :=
  let s := toString n
  if s.length < 2 then "0" ++ s else s

/-- JS `s.replace(pat, repl)` for plain string patterns: replace the
first occurrence only. -/
def splitFirst (pat : List Char) : List Char → Option (List Char × List Char)
  | [] => none
  | c :: rest =>
    if leadsWith pat (c :: rest) then some ([], (c :: rest).drop pat.length)
    else
      match splitFirst pat rest with
      | some (pre, post) => some (c :: pre, post)
      | none => none

def replaceFirst (pat repl s : String) : String :=
  match splitFirst pat.data s.data with
  | some (pre, post) => String.mk (pre ++ repl.data ++ post)
  | none => s

/-- `url.replace('www.instagram.com', 'm.instagram.com')`. -/
def rewriteMobile (url : String) : String :=
  replaceFirst "www.instagram.com" "m.instagram.com" url

/-- `Array.from(new Set(xs))`: de-duplicate keeping first occurrences. -/
def dedupGo (seen : List String) : List String → List String
  | [] => []
  | x :: rest =>
    if x ∈ seen then dedupGo seen rest else x :: dedupGo (x :: seen) rest

def dedupKeepFirst (xs : List String) : List String := dedupGo [] xs

/-! ## Media selection (shared by the browser paths of both variants;
`src/server/services/instagram.ts` lines 707-746 and
`src/unnamed/part_003` lines 540-579 are textually identical). -/

def cdnOk (u : String) : Bool :=
  includesStr u "cdninstagram" || includesStr u "fbcdn"

/-- The reel/igtv arm: videos are mandatory, with an `og:video` `.mp4`
last resort; no fallback to images for video content. -/
def videoSelect (videoUrls : List String) (ogVideo : String) :
    Except ExtractErr (List String) :=
  if !videoUrls.isEmpty then .ok videoUrls
  else if ogVideo != "" && !includesStr ogVideo "blob:" &&
      includesStr ogVideo ".mp4" then .ok [ogVideo]
  else .error .noVideo

/-- Content-type-specific media selection of the browser path. -/
def selectMediaUrls (t : ContentType) (videoUrls imageUrls : List String)
    (ogVideo ogImage : String) : Except ExtractErr (List String) :=
  match t with
  | .story =>
    if !videoUrls.isEmpty then .ok videoUrls
    else if !imageUrls.isEmpty then .ok imageUrls
    else if ogVideo != "" && !includesStr ogVideo "blob:" && cdnOk ogVideo &&
        !includesStr ogVideo "/rsrc.php/" then .ok [ogVideo]
    else if ogImage != "" && !includesStr ogImage "blob:" && cdnOk ogImage &&
        !includesStr ogImage "/rsrc.php/" then .ok [ogImage]
    else .error .noStoryMedia
  | .reel => videoSelect videoUrls ogVideo
  | .igtv => videoSelect videoUrls ogVideo
  | .post =>
    if !imageUrls.isEmpty then .ok imageUrls
    else if ogImage != "" && !includesStr ogImage "blob:" then .ok [ogImage]
    else .error .noImage

/-! ## Variant 2 orchestrator
(`src/server/services/instagram.ts`, second half of the file: cache,
story network listener, story-only error propagation, mock fallback for
the other types, random engagement numbers). -/

def unsplashThumb : String :=
  "https://images.unsplash.com/photo-1611162617474-5b21e879e113?w=400&h=400&fit=crop"

def unsplashImage : String :=
  "https://images.unsplash.com/photo-1611162617474-5b21e879e113?w=800&h=800&fit=crop"

def isVideoType (t : ContentType) : Bool := t = .reel || t = .igtv

/-- The success-path metadata object of variant 2 (lines 750-761):
engagement numbers are random draws, and `mediaCount` is the random
`Math.random() > 0.7 ? Math.floor(Math.random() * 5) + 2 : 1`
expression — not the length of `mediaUrls`. -/
def buildMetadataV2 (t : ContentType) (username ogDescription ogImage : String)
    (mediaUrls : List String) (r : Rand) : InstagramMetadata :=
  { type := t
    username := username
    caption := some (if ogDescription = "" then "Instagram content" else ogDescription)
    thumbnail := if ogImage = "" then unsplashThumb else ogImage
    mediaUrls := mediaUrls
    likes := some (r.likes % 100000)
    comments := some (r.comments % 1000)
    views := if isVideoType t then some (r.views % 500000) else none
    duration := if isVideoType t then some ("0:" ++ pad2 (r.durSec % 60)) else none
    mediaCount := some (if r.multi then r.extra % 5 + 2 else 1) }

/-- The catch-block fallback object of variant 2 (lines 788-799),
returned for non-story types when extraction fails: placeholder
Unsplash image media and random engagement numbers. -/
def fallbackMetadataV2 (t : ContentType) (r : Rand) : InstagramMetadata :=
  { type := t
    username := "instagram_user"
    caption := some "Instagram content"
    thumbnail := unsplashThumb
    mediaUrls := [unsplashImage]
    likes := some (r.likes % 100000)
    comments := some (r.comments % 1000)
    views := if isVideoType t then some (r.views % 500000) else none
    duration := if isVideoType t then some ("0:" ++ pad2 (r.durSec % 60)) else none
    mediaCount := some 1 }

/-- The try-block body of variant 2 once the page was reached: story
URLs are rewritten to the mobile host, network-captured URLs (story
only) are merged with the DOM candidates, and media selection plus
metadata construction follow. -/
def browseV2 (url0 : String) (t : ContentType) (pd : PageData) (r : Rand) :
    Except ExtractErr InstagramMetadata :=
  let url := if t = .story then rewriteMobile url0 else url0
  let respV := if t = .story then pd.respVideoUrls else []
  let respI := if t = .story then pd.respImageUrls else []
  let videoUrls := dedupKeepFirst (respV ++ pd.videoUrls)
  let imageUrls := dedupKeepFirst (respI ++ pd.imageUrls)
  let username :=
    if t = .story then storyUsername url
    else generalUsername pd.ogTitle pd.title url
  match selectMediaUrls t videoUrls imageUrls pd.ogVideo pd.ogImage with
  | .error e => .error e
  | .ok mediaUrls =>
    .ok (buildMetadataV2 t username pd.ogDescription pd.ogImage mediaUrls r)

/-- The whole try-block of variant 2: browser/page failures
(`env = none`) and selection failures both throw. -/
def innerV2 (url : String) (t : ContentType) (env : Option PageData) (r : Rand) :
    Except ExtractErr InstagramMetadata :=
  match env with
  | none => .error .ioFailure
  | some pd => browseV2 url t pd r

/-- Result of one `extractMetadata` call of variant 2: the returned
value or thrown error, the cache afterwards, and whether the
browser-driven extraction was attempted (network-touching work). -/
structure V2Outcome where
  result : Except ExtractErr InstagramMetadata
  cache : MetaCache
  browsed : Bool
deriving Repr

/-- Variant 2 behind the cache check: try the browser extraction; on
success cache and return; on failure re-throw for stories and return
the mock fallback object for every other type (lines 777-799). -/
def extractV2Go (url : String) (now : Nat) (env : Option PageData) (r : Rand)
    (cache : MetaCache) : V2Outcome :=
  let t := detectContentType url
  match innerV2 url t env r with
  | .ok m => ⟨.ok m, mapSet cache url ⟨m, now⟩, true⟩
  | .error e =>
    if t = .story then ⟨.error e, cache, true⟩
    else ⟨.ok (fallbackMetadataV2 t r), cache, true⟩

/-- Embedding of variant 2's `extractMetadata` (lines 428-809): URL
validation, cache lookup keyed by the raw URL with the 5-minute TTL,
then the guarded extraction. `now` is `Date.now()`. -/
def extractMetadataV2 (url : String) (now : Nat) (env : Option PageData) (r : Rand)
    (cache : MetaCache) : V2Outcome :=
  if validateInstagramUrl url then
    match mapGet cache url with
    | some e =>
      if now - e.timestamp < CACHE_TTL then ⟨.ok e.data, cache, false⟩
      else extractV2Go url now env r cache
    | none => extractV2Go url now env r cache
  else ⟨.error .invalidUrl, cache, false⟩

/-! ## Variant 3 orchestrator
(`src/unnamed/part_003`, first half: fast HTML-first extraction with
Puppeteer fallback, URL normalization for the cache key, and strict
error propagation — the catch block never substitutes mock data). -/

/-- Oracle for the fast extractor's single HTTP GET: `none` when axios
threw (network error/timeout), otherwise the cheerio-parsed Open-Graph
tags and the script-scan media candidates. -/
structure FastPage where
  ogTitle : String
  ogDescription : String
  ogImage : String
  ogVideo : String
  videoUrls : List String
  imageUrls : List String
deriving DecidableEq, Repr

/-- Media selection of the fast path (`part_003` lines 197-213):
reel/igtv demand videos (og:video `.mp4` last resort), everything else
takes images, else og:image. -/
def selectMediaFast (t : ContentType) (videoUrls imageUrls : List String)
    (ogVideo ogImage : String) : Except ExtractErr (List String) :=
  if t = .reel ∨ t = .igtv then
    if !videoUrls.isEmpty then .ok videoUrls
    else if ogVideo != "" && includesStr ogVideo ".mp4" then .ok [ogVideo]
    else .error .noVideo
  else
    if !imageUrls.isEmpty then .ok imageUrls
    else if ogImage != "" then .ok [ogImage]
    else .error .noImage

/-- Embedding of `extractMetadataFast` (`part_003` lines 108-242): one
HTTP GET, username from `og:title` only, type-specific selection, a
thumbnail requirement for posts, and `mediaCount = mediaUrls.length`. -/
def extractMetadataFast (url : String) (net : Option FastPage) :
    Except ExtractErr InstagramMetadata :=
  let t := detectContentType url
  match net with
  | none => .error .ioFailure
  | some fp =>
    let username := generalUsername fp.ogTitle "" url
    match selectMediaFast t fp.videoUrls fp.imageUrls fp.ogVideo fp.ogImage with
    | .error e => .error e
    | .ok mediaUrls =>
      let thumbnail :=
        if fp.ogImage != "" then fp.ogImage
        else match fp.imageUrls with
          | i :: _ => i
          | [] => ""
      if t = .post ∧ thumbnail = "" then .error .noThumb
      else .ok
        { type := t
          username := username
          caption := some (if fp.ogDescription = "" then "Instagram content" else fp.ogDescription)
          thumbnail := thumbnail
          mediaUrls := mediaUrls
          likes := some 0
          comments := some 0
          views := if isVideoType t then some 0 else none
          duration := if isVideoType t then some "0:00" else none
          mediaCount := some mediaUrls.length }

/-- The Puppeteer try-block of `part_003` (lines 281-616): mobile-host
rewrite for all types, DOM-extracted URLs used directly, the shared
media selection, a post thumbnail requirement, and metadata with zeroed
engagement and `mediaCount = mediaUrls.length`. -/
def browseV3 (url0 : String) (t : ContentType) (pd : PageData) :
    Except ExtractErr InstagramMetadata :=
  let url := rewriteMobile url0
  let username :=
    if t = .story then storyUsername url
    else generalUsername pd.ogTitle pd.title url
  match selectMediaUrls t pd.videoUrls pd.imageUrls pd.ogVideo pd.ogImage with
  | .error e => .error e
  | .ok mediaUrls =>
    let thumbnail :=
      if pd.ogImage != "" then pd.ogImage
      else match pd.imageUrls with
        | i :: _ => i
        | [] => ""
    if t = .post ∧ thumbnail = "" then .error .noThumb
    else .ok
      { type := t
        username := username
        caption := some (if pd.ogDescription = "" then "Instagram content" else pd.ogDescription)
        thumbnail := thumbnail
        mediaUrls := mediaUrls
        likes := some 0
        comments := some 0
        views := if isVideoType t then some 0 else none
        duration := if isVideoType t then some "0:00" else none
        mediaCount := some mediaUrls.length }

/-- The whole Puppeteer try-block including browser/page failures. -/
def innerV3 (url : String) (t : ContentType) (env : Option PageData) :
    Except ExtractErr InstagramMetadata :=
  match env with
  | none => .error .ioFailure
  | some pd => browseV3 url t pd

/-- Result of one `extractMetadata` call of `part_003`: returned value
or thrown error, cache afterwards, and which extractors ran. -/
structure V3Outcome where
  result : Except ExtractErr InstagramMetadata
  cache : MetaCache
  fastCalled : Bool
  browserCalled : Bool
deriving Repr

/-- The Puppeteer phase of `part_003`'s `extractMetadata`: cache the
result on success; on any failure re-throw a wrapped error (line 624 —
no mock fallback in this variant). -/
def v3BrowserPhase (url cacheKey : String) (now : Nat) (t : ContentType)
    (env : Option PageData) (cache : MetaCache) (fastRan : Bool) : V3Outcome :=
  match innerV3 url t env with
  | .ok m => ⟨.ok m, mapSet cache cacheKey ⟨m, now⟩, fastRan, true⟩
  | .error e => ⟨.error (.wrapped e), cache, fastRan, true⟩

/-- Embedding of `part_003`'s `extractMetadata` (lines 244-634):
validation, cache lookup keyed by the normalized URL, fast path for
non-story types with silent fallback to the browser, browser-only path
for stories. `normalize` stands for `normalizeUrl`, whose body delegates
to the platform WHATWG `URL` parser (not repository code). -/
def extractMetadataV3 (url : String) (now : Nat) (normalize : String → String)
    (fastNet : Option FastPage) (env : Option PageData) (cache : MetaCache) :
    V3Outcome :=
  if validateInstagramUrl url then
    let cacheKey := normalize url
    let hit :=
      match mapGet cache cacheKey with
      | some e => if now - e.timestamp < CACHE_TTL then some e.data else none
      | none => none
    match hit with
    | some m => ⟨.ok m, cache, false, false⟩
    | none =>
      let t := detectContentType url
      if t = .story then v3BrowserPhase url cacheKey now t env cache false
      else
        match extractMetadataFast url fastNet with
        | .ok m => ⟨.ok m, mapSet cache cacheKey ⟨m, now⟩, true, false⟩
        | .error _ => v3BrowserPhase url cacheKey now t env cache true
  else ⟨.error .invalidUrl, cache, false, false⟩

/-! ## Download store (`src/server/storage.ts`, `MemStorage`) -/

/-- A `Download` row of the schema: nullable columns become `Option`. -/
structure Download where
  id : String
  url : String
  type : String
  status : String
  metadata : Option String
  filePath : Option String
  fileSize : Option Int
  downloadedAt : Option Nat
  createdAt : Option Nat
deriving DecidableEq, Repr

/-- A `Partial<Download>` argument: `none` means the field is absent
from the update object (so the spread keeps the old value). -/
structure DownloadPatch where
  id : Option String := none
  url : Option String := none
  type : Option String := none
  status : Option String := none
  metadata : Option (Option String) := none
  filePath : Option (Option String) := none
  fileSize : Option (Option Int) := none
  downloadedAt : Option (Option Nat) := none
  createdAt : Option (Option Nat) := none
deriving DecidableEq, Repr

/-- JS `{ ...existing, ...updates }`: supplied fields win, absent fields
keep the existing value. -/
def applySpread (d : Download) (u : DownloadPatch) : Download :=
  { id := u.id.getD d.id
    url := u.url.getD d.url
    type := u.type.getD d.type
    status := u.status.getD d.status
    metadata := u.metadata.getD d.metadata
    filePath := u.filePath.getD d.filePath
    fileSize := u.fileSize.getD d.fileSize
    downloadedAt := u.downloadedAt.getD d.downloadedAt
    createdAt := u.createdAt.getD d.createdAt }

abbrev DownloadStore := List (String × Download)

/-- Embedding of `MemStorage.updateDownload`: return `undefined` and
leave the map untouched when the id is absent; otherwise store and
return the spread-merged record. -/
def updateDownload (store : DownloadStore) (id : String) (u : DownloadPatch) :
    Option Download × DownloadStore :=
  match mapGet store id with
  | none => (none, store)
  | some existing =>
    let updated := applySpread existing u
    (some updated, mapSet store id updated)

/-! ## Matcher correctness lemmas -/

theorem dropLit_eq_some (lit : List Char) :
    ∀ s r, dropLit lit s = some r ↔ s = lit ++ r := by
  induction lit with
  | nil => intro s r; simp [dropLit]
  | cons c cs ih =>
    intro s r
    cases s with
    | nil => simp [dropLit]
    | cons d ds =>
      by_cases h : c = d
      · subst h
        simp [dropLit, ih]
      · simp only [dropLit, if_neg h, List.cons_append]
        constructor
        · intro hx; exact Option.noConfusion hx
        · intro hx
          injection hx with h1 _
          exact absurd h1.symm h

theorem headIn_iff_seg (p : Char → Bool) (s : List Char) :
    headIn p s = true ↔ ∃ id rest, s = id ++ rest ∧ id ≠ [] ∧ allChars p id := by
  constructor
  · cases s with
    | nil => simp [headIn]
    | cons c t =>
      intro h
      exact ⟨[c], t, rfl, by simp, by simpa [allChars] using h⟩
  · rintro ⟨id, rest, hs, hne, hall⟩
    cases id with
    | nil => exact absurd rfl hne
    | cons c cs =>
      subst hs
      simpa [headIn] using hall c (by simp)

theorem takeWhile_all_sep {u v : List Char} (hu : allChars isWordDotDash u) :
    (u ++ '/' :: v).takeWhile isWordDotDash = u ∧
    (u ++ '/' :: v).dropWhile isWordDotDash = '/' :: v := by
  induction u with
  | nil =>
    have hs : isWordDotDash '/' = false := by decide
    constructor
    · simp [List.takeWhile_cons, hs]
    · simp [List.dropWhile_cons, hs]
  | cons c cs ih =>
    have hc : isWordDotDash c = true := hu c (by simp)
    have hcs : allChars isWordDotDash cs := fun x hx => hu x (by simp [hx])
    obtain ⟨h1, h2⟩ := ih hcs
    constructor
    · simp [List.takeWhile_cons, hc, h1]
    · simp [List.dropWhile_cons, hc, h2]

theorem storyTail_iff (s : List Char) :
    storyTail s = true ↔
      ∃ user v, s = user ++ '/' :: v ∧ user ≠ [] ∧
        allChars isWordDotDash user ∧ headIn isWordDash v = true := by
  constructor
  · intro h
    unfold storyTail at h
    rw [Bool.and_eq_true] at h
    obtain ⟨hne, hrest⟩ := h
    have hcat : s.takeWhile isWordDotDash ++ s.dropWhile isWordDotDash = s :=
      List.takeWhile_append_dropWhile _ _
    have hall : allChars isWordDotDash (s.takeWhile isWordDotDash) :=
      fun c hc => List.mem_takeWhile_imp hc
    cases hm : s.dropWhile isWordDotDash with
    | nil => rw [hm] at hrest; exact absurd hrest (by simp [slashThenWordDash])
    | cons c more =>
      rw [hm] at hrest
      unfold slashThenWordDash at hrest
      rw [Bool.and_eq_true] at hrest
      obtain ⟨hc, hmore⟩ := hrest
      have hc' : c = '/' := by simpa using hc
      subst hc'
      refine ⟨s.takeWhile isWordDotDash, more, ?_, ?_, hall, hmore⟩
      · rw [← hm]
        exact hcat.symm
      · intro hnil
        rw [hnil] at hne
        exact absurd hne (by simp)
  · rintro ⟨user, v, hs, hne, hall, hhead⟩
    subst hs
    obtain ⟨h1, h2⟩ := takeWhile_all_sep hall
    unfold storyTail
    rw [Bool.and_eq_true]
    refine ⟨?_, ?_⟩
    · rw [h1]
      cases user with
      | nil => exact absurd rfl hne
      | cons c cs => simp
    · rw [h2]
      unfold slashThenWordDash
      simpa using hhead

theorem matchShape_iff (seg : String) (tailOk : List Char → Bool) (url : String) :
    matchShape seg tailOk url = true ↔
      ∃ p ∈ igHosts, ∃ rest, url.data = (p ++ seg).data ++ rest ∧ tailOk rest = true := by
  unfold matchShape
  rw [List.any_eq_true]
  constructor
  · rintro ⟨p, hp, hmatch⟩
    cases hm : dropLit (p ++ seg).data url.data with
    | some rest =>
      rw [hm] at hmatch
      exact ⟨p, hp, rest, (dropLit_eq_some _ _ _).1 hm, hmatch⟩
    | none => rw [hm] at hmatch; exact absurd hmatch (by simp)
  · rintro ⟨p, hp, rest, hdec, hok⟩
    refine ⟨p, hp, ?_⟩
    rw [(dropLit_eq_some (p ++ seg).data url.data rest).2 hdec]
    exact hok

theorem simpleShape_iff (seg : String) (url : String) :
    matchShape seg (headIn isWordDash) url = true ↔ SimpleShape seg url := by
  rw [matchShape_iff]
  unfold SimpleShape
  constructor
  · rintro ⟨p, hp, rest, hurl, hok⟩
    obtain ⟨id, r2, hrest, hne, hall⟩ := (headIn_iff_seg _ _).1 hok
    exact ⟨p, hp, id, r2, by rw [hurl, hrest, List.append_assoc], hne, hall⟩
  · rintro ⟨p, hp, id, rest, hurl, hne, hall⟩
    refine ⟨p, hp, id ++ rest, by rw [hurl, List.append_assoc], ?_⟩
    exact (headIn_iff_seg _ _).2 ⟨id, rest, rfl, hne, hall⟩

theorem storyShape_iff (url : String) :
    matchShape "stories/" storyTail url = true ↔ StoryShape url := by
  rw [matchShape_iff]
  unfold StoryShape
  constructor
  · rintro ⟨p, hp, rest, hurl, hok⟩
    obtain ⟨user, v, hrest, hne, hall, hhead⟩ := (storyTail_iff _).1 hok
    obtain ⟨id, r2, hv, hidne, hidall⟩ := (headIn_iff_seg _ _).1 hhead
    refine ⟨p, hp, user, id, r2, ?_, hne, hall, hidne, hidall⟩
    rw [hurl, hrest, hv, List.append_assoc]
  · rintro ⟨p, hp, user, id, rest, hurl, hne, hall, hidne, hidall⟩
    refine ⟨p, hp, user ++ '/' :: (id ++ rest), by rw [hurl, List.append_assoc], ?_⟩
    exact (storyTail_iff _).2
      ⟨user, id ++ rest, rfl, hne, hall,
        (headIn_iff_seg _ _).2 ⟨id, rest, rfl, hidne, hidall⟩⟩

/-- C6: validateInstagramUrl returns true exactly for URL strings of one
of the four fixed shapes — post `/p/`, reel `/reel/`, story
`/stories/<username>/<id>`, igtv `/tv/` — on the (optionally `www.`)
instagram.com host, and false for every other string. -/
theorem validateInstagramUrl_iff_shape (url : String) :
    validateInstagramUrl url = true ↔
      SimpleShape "p/" url ∨ SimpleShape "reel/" url ∨ StoryShape url ∨
        SimpleShape "tv/" url := by
  unfold validateInstagramUrl
  simp only [Bool.or_eq_true]
  rw [simpleShape_iff "p/", simpleShape_iff "reel/", storyShape_iff,
    simpleShape_iff "tv/"]
  tauto

/-- C7: detectContentType is total and inspects the URL's segments in
the fixed priority order reel > stories > tv > p, returning post when
none match; a URL containing several segments is classified by the
highest-priority one. -/
theorem detectContentType_priority (url : String) :
    (includesStr url "/reel/" = true → detectContentType url = .reel)
  ∧ (includesStr url "/reel/" = false → includesStr url "/stories/" = true →
      detectContentType url = .story)
  ∧ (includesStr url "/reel/" = false → includesStr url "/stories/" = false →
      includesStr url "/tv/" = true → detectContentType url = .igtv)
  ∧ (includesStr url "/reel/" = false → includesStr url "/stories/" = false →
      includesStr url "/tv/" = false → detectContentType url = .post) := by
  unfold detectContentType
  refine ⟨fun h1 => ?_, fun h1 h2 => ?_, fun h1 h2 h3 => ?_, fun h1 h2 h3 => ?_⟩
  · simp [h1]
  · simp [h1, h2]
  · simp [h1, h2, h3]
  · by_cases h4 : includesStr url "/p/" <;> simp [h1, h2, h3, h4]

/-- Witness for C7: a URL containing all four segments is classified as
a reel (highest priority), and a URL containing none is a post. -/
theorem detectContentType_priority_check :
    (includesStr "https://instagram.com/reel/a/stories/u/1/tv/q/p/z" "/reel/" = true ∧
      detectContentType "https://instagram.com/reel/a/stories/u/1/tv/q/p/z" = .reel) ∧
    (includesStr "https://instagram.com/other" "/reel/" = false ∧
      detectContentType "https://instagram.com/other" = .post) :=
  ⟨⟨by decide, (detectContentType_priority _).1 (by decide)⟩,
   ⟨by decide, (detectContentType_priority _).2.2.2 (by decide) (by decide) (by decide)⟩⟩

/-- C8: generateFilename produces `{username}_{type}_{timestamp}` with a
`.mp4` extension for reel/igtv and `.jpg` otherwise, appending a
`_{n}` suffix before the extension exactly when `mediaCount > 1`. -/
theorem generateFilename_matches_spec (m : InstagramMetadata) (index now : Nat) :
    generateFilename m index now = filenameSpec m index now := by
  unfold generateFilename filenameSpec
  cases hmc : m.mediaCount with
  | none =>
    rcases m with ⟨t, u, c, th, mu, l, co, v, d, mc⟩
    cases t <;> simp_all [String.append_assoc]
  | some c =>
    rcases m with ⟨t, u, ca, th, mu, l, co, v, d, mc⟩
    simp only at hmc
    by_cases hc : 1 < c <;> cases t <;>
      simp [hmc, hc, String.append_assoc]

theorem mapGet_mapSet_self {α : Type} (m : List (String × α)) (k : String) (v : α) :
    mapGet (mapSet m k v) k = some v := by
  induction m with
  | nil => simp [mapGet, mapSet]
  | cons p rest ih =>
    obtain ⟨k0, w⟩ := p
    by_cases h : k0 = k
    · simp [mapGet, mapSet, h]
    · simp [mapGet, mapSet, h, ih]

theorem mapGet_mapSet_ne {α : Type} (m : List (String × α)) (k k2 : String) (v : α)
    (h : k ≠ k2) : mapGet (mapSet m k v) k2 = mapGet m k2 := by
  induction m with
  | nil => simp [mapGet, mapSet, h]
  | cons p rest ih =>
    obtain ⟨k0, w⟩ := p
    by_cases h0 : k0 = k
    · subst h0
      simp [mapGet, mapSet, h]
    · simp [mapGet, mapSet, h0, ih]

/-! ## Orchestrator helper lemmas -/

theorem extractV2Go_ok (url : String) (now : Nat) (env : Option PageData) (r : Rand)
    (cache : MetaCache) (m : InstagramMetadata)
    (hok : innerV2 url (detectContentType url) env r = .ok m) :
    extractV2Go url now env r cache = ⟨.ok m, mapSet cache url ⟨m, now⟩, true⟩ := by
  simp [extractV2Go, hok]

theorem extractV2Go_err_story (url : String) (now : Nat) (env : Option PageData)
    (r : Rand) (cache : MetaCache) (e : ExtractErr)
    (hs : detectContentType url = .story)
    (he : innerV2 url .story env r = .error e) :
    extractV2Go url now env r cache = ⟨.error e, cache, true⟩ := by
  simp [extractV2Go, hs, he]

theorem extractV2Go_err_other (url : String) (now : Nat) (env : Option PageData)
    (r : Rand) (cache : MetaCache) (e : ExtractErr)
    (hs : detectContentType url ≠ .story)
    (he : innerV2 url (detectContentType url) env r = .error e) :
    extractV2Go url now env r cache =
      ⟨.ok (fallbackMetadataV2 (detectContentType url) r), cache, true⟩ := by
  simp [extractV2Go, hs, he]

theorem extractMetadataV2_miss (url : String) (now : Nat) (env : Option PageData)
    (r : Rand) (cache : MetaCache)
    (hv : validateInstagramUrl url = true)
    (hmiss : ∀ en, mapGet cache url = some en → ¬(now - en.timestamp < CACHE_TTL)) :
    extractMetadataV2 url now env r cache = extractV2Go url now env r cache := by
  unfold extractMetadataV2
  rw [hv]
  cases hc : mapGet cache url with
  | none => simp
  | some en => simp [hmiss en hc]

theorem v3BrowserPhase_fastCalled (url cacheKey : String) (now : Nat)
    (t : ContentType) (env : Option PageData) (cache : MetaCache) (fastRan : Bool) :
    (v3BrowserPhase url cacheKey now t env cache fastRan).fastCalled = fastRan := by
  unfold v3BrowserPhase
  cases innerV3 url t env <;> simp

theorem extractMetadataV3_miss (url : String) (now : Nat)
    (normalize : String → String) (fastNet : Option FastPage)
    (env : Option PageData) (cache : MetaCache)
    (hv : validateInstagramUrl url = true)
    (hmiss : ∀ en, mapGet cache (normalize url) = some en →
      ¬(now - en.timestamp < CACHE_TTL)) :
    extractMetadataV3 url now normalize fastNet env cache =
      (if detectContentType url = .story then
        v3BrowserPhase url (normalize url) now (detectContentType url) env cache false
      else
        match extractMetadataFast url fastNet with
        | .ok m => ⟨.ok m, mapSet cache (normalize url) ⟨m, now⟩, true, false⟩
        | .error _ =>
          v3BrowserPhase url (normalize url) now (detectContentType url) env cache true) := by
  unfold extractMetadataV3
  cases hc : mapGet cache (normalize url) with
  | none => simp only [hv, eq_self_iff_true, if_true, hc]
  | some en =>
    simp only [hv, eq_self_iff_true, if_true, hc]
    rw [if_neg (hmiss en hc)]

/-! ## Claim theorems about the orchestrators and the store -/

/-- C9: a URL failing shape validation is rejected with the InvalidURL
error immediately, before any cache access or browser/network work, and
the error is surfaced to the caller unchanged (never converted into a
fallback attempt) — in both orchestrator variants. -/
theorem invalid_url_rejected_before_io (url : String) (now : Nat)
    (env : Option PageData) (r : Rand) (cache : MetaCache)
    (normalize : String → String) (fastNet : Option FastPage) (cache2 : MetaCache)
    (h : validateInstagramUrl url = false) :
    extractMetadataV2 url now env r cache = ⟨.error .invalidUrl, cache, false⟩ ∧
    extractMetadataV3 url now normalize fastNet env cache2 =
      ⟨.error .invalidUrl, cache2, false, false⟩ := by
  constructor
  · unfold extractMetadataV2
    rw [h]
    simp
  · unfold extractMetadataV3
    rw [h]
    simp

/-- Witness for C9: a malformed string is rejected before any work. -/
theorem invalid_url_rejected_before_io_check :
    validateInstagramUrl "not a url" = false ∧
    extractMetadataV2 "not a url" 0 none ⟨0, 0, 0, 0, false, 0⟩ [] =
      ⟨.error .invalidUrl, [], false⟩ :=
  ⟨by decide,
    (invalid_url_rejected_before_io "not a url" 0 none ⟨0, 0, 0, 0, false, 0⟩ []
      id none [] (by decide)).1⟩

/-- C3: for a story URL, when the browser extraction fails (browser or
page error, or no media candidates) and the cache cannot serve the
request, extractMetadata propagates that error to the caller and leaves
the cache unchanged — it never returns a placeholder metadata object
with synthetic engagement numbers or mock media. -/
theorem story_failure_propagates (url : String) (now : Nat) (env : Option PageData)
    (r : Rand) (cache : MetaCache) (e : ExtractErr)
    (hv : validateInstagramUrl url = true)
    (hs : detectContentType url = .story)
    (hmiss : ∀ en, mapGet cache url = some en → ¬(now - en.timestamp < CACHE_TTL))
    (hfail : innerV2 url .story env r = .error e) :
    extractMetadataV2 url now env r cache = ⟨.error e, cache, true⟩ := by
  rw [extractMetadataV2_miss url now env r cache hv hmiss]
  exact extractV2Go_err_story url now env r cache e hs hfail

/-- Witness for C3: a story page with no media candidates makes the
whole call fail with the story error, cache untouched. -/
theorem story_failure_propagates_check :
    (validateInstagramUrl "https://instagram.com/stories/someuser/999" = true ∧
      detectContentType "https://instagram.com/stories/someuser/999" = .story ∧
      innerV2 "https://instagram.com/stories/someuser/999" .story
        (some ⟨"", "", "", "", "", [], [], [], []⟩) ⟨0, 0, 0, 0, false, 0⟩ =
        .error .noStoryMedia) ∧
    extractMetadataV2 "https://instagram.com/stories/someuser/999" 0
      (some ⟨"", "", "", "", "", [], [], [], []⟩) ⟨0, 0, 0, 0, false, 0⟩ [] =
      ⟨.error .noStoryMedia, [], true⟩ :=
  ⟨⟨by decide, by decide, rfl⟩,
    story_failure_propagates "https://instagram.com/stories/someuser/999" 0
      (some ⟨"", "", "", "", "", [], [], [], []⟩) ⟨0, 0, 0, 0, false, 0⟩ []
      .noStoryMedia (by decide) (by decide)
      (fun en h => by simp [mapGet] at h) rfl⟩

/-- C4: cache discipline of variant 2's extractMetadata — (1) a call on
a URL cached within the 5-minute TTL returns the cached metadata with
no browser work and no cache change; (2) a call whose result is an
error never writes the cache; (3) the cache changes only when the
extraction genuinely succeeded, and then the new entry is exactly the
returned metadata stamped with the call time; (4) after a successful
extraction, any call on the same URL within the TTL is served from the
cache with no new extraction, whatever the new page oracle would say. -/
theorem cache_hit_and_write_discipline (url : String) (now : Nat)
    (env : Option PageData) (r : Rand) (cache : MetaCache) :
    (∀ en, validateInstagramUrl url = true → mapGet cache url = some en →
      now - en.timestamp < CACHE_TTL →
      extractMetadataV2 url now env r cache = ⟨.ok en.data, cache, false⟩) ∧
    (∀ e, (extractMetadataV2 url now env r cache).result = .error e →
      (extractMetadataV2 url now env r cache).cache = cache) ∧
    ((extractMetadataV2 url now env r cache).cache ≠ cache →
      ∃ m, (extractMetadataV2 url now env r cache).result = .ok m ∧
        innerV2 url (detectContentType url) env r = .ok m ∧
        (extractMetadataV2 url now env r cache).cache = mapSet cache url ⟨m, now⟩) ∧
    (∀ m now2 env2 r2,
      validateInstagramUrl url = true →
      innerV2 url (detectContentType url) env r = .ok m →
      (∀ en, mapGet cache url = some en → ¬(now - en.timestamp < CACHE_TTL)) →
      now2 - now < CACHE_TTL →
      extractMetadataV2 url now2 env2 r2 (extractMetadataV2 url now env r cache).cache =
        ⟨.ok m, (extractMetadataV2 url now env r cache).cache, false⟩) := by
  have hwrite : (extractMetadataV2 url now env r cache).cache ≠ cache →
      ∃ m, (extractMetadataV2 url now env r cache).result = .ok m ∧
        innerV2 url (detectContentType url) env r = .ok m ∧
        (extractMetadataV2 url now env r cache).cache = mapSet cache url ⟨m, now⟩ := by
    intro hne
    unfold extractMetadataV2 at *
    by_cases hv : validateInstagramUrl url
    · rw [hv] at hne ⊢
      cases hc : mapGet cache url with
      | none =>
        simp only [hc] at hne ⊢
        cases hi : innerV2 url (detectContentType url) env r with
        | ok m =>
          rw [extractV2Go_ok url now env r cache m hi] at hne ⊢
          exact ⟨m, rfl, rfl, rfl⟩
        | error e =>
          by_cases hs : detectContentType url = .story
          · rw [extractV2Go_err_story url now env r cache e hs (hs ▸ hi)] at hne
            exact absurd rfl hne
          · rw [extractV2Go_err_other url now env r cache e hs hi] at hne
            exact absurd rfl hne
      | some en =>
        simp only [hc] at hne ⊢
        by_cases htt : now - en.timestamp < CACHE_TTL
        · rw [if_pos htt] at hne
          exact absurd rfl hne
        · rw [if_neg htt] at hne ⊢
          cases hi : innerV2 url (detectContentType url) env r with
          | ok m =>
            rw [extractV2Go_ok url now env r cache m hi] at hne ⊢
            exact ⟨m, rfl, rfl, rfl⟩
          | error e =>
            by_cases hs : detectContentType url = .story
            · rw [extractV2Go_err_story url now env r cache e hs (hs ▸ hi)] at hne
              exact absurd rfl hne
            · rw [extractV2Go_err_other url now env r cache e hs hi] at hne
              exact absurd rfl hne
    · simp only [Bool.not_eq_true] at hv
      rw [hv] at hne
      simp at hne
  refine ⟨?_, ?_, hwrite, ?_⟩
  · intro en hv hc htt
    unfold extractMetadataV2
    rw [hv, hc]
    simp [htt]
  · intro e he
    by_contra hne
    obtain ⟨m, hm, _, _⟩ := hwrite hne
    rw [he] at hm
    exact Except.noConfusion hm
  · intro m now2 env2 r2 hv hok hmiss htt
    have h1 : extractMetadataV2 url now env r cache =
        ⟨.ok m, mapSet cache url ⟨m, now⟩, true⟩ := by
      rw [extractMetadataV2_miss url now env r cache hv hmiss]
      exact extractV2Go_ok url now env r cache m hok
    rw [h1]
    unfold extractMetadataV2
    rw [hv, mapGet_mapSet_self]
    simp [htt]

/-- Witness for C4: a post extraction succeeds and is cached; a second
call 10 ms later is answered from the cache with no browser work even
though the page oracle is now empty. -/
theorem cache_hit_and_write_discipline_check :
    (validateInstagramUrl "https://instagram.com/p/AB" = true ∧
      innerV2 "https://instagram.com/p/AB"
        (detectContentType "https://instagram.com/p/AB")
        (some ⟨"", "", "", "", "", [], ["img1"], [], []⟩) ⟨0, 0, 0, 0, false, 0⟩ =
        .ok (buildMetadataV2 .post "p" "" "" ["img1"] ⟨0, 0, 0, 0, false, 0⟩)) ∧
    extractMetadataV2 "https://instagram.com/p/AB" 10 none ⟨0, 0, 0, 0, false, 0⟩
        (extractMetadataV2 "https://instagram.com/p/AB" 0
          (some ⟨"", "", "", "", "", [], ["img1"], [], []⟩)
          ⟨0, 0, 0, 0, false, 0⟩ []).cache =
      ⟨.ok (buildMetadataV2 .post "p" "" "" ["img1"] ⟨0, 0, 0, 0, false, 0⟩),
        (extractMetadataV2 "https://instagram.com/p/AB" 0
          (some ⟨"", "", "", "", "", [], ["img1"], [], []⟩)
          ⟨0, 0, 0, 0, false, 0⟩ []).cache, false⟩ :=
  ⟨⟨by decide, rfl⟩,
    (cache_hit_and_write_discipline "https://instagram.com/p/AB" 0
        (some ⟨"", "", "", "", "", [], ["img1"], [], []⟩)
        ⟨0, 0, 0, 0, false, 0⟩ []).2.2.2
      (buildMetadataV2 .post "p" "" "" ["img1"] ⟨0, 0, 0, 0, false, 0⟩)
      10 none ⟨0, 0, 0, 0, false, 0⟩ (by decide) rfl
      (fun en h => by simp [mapGet] at h) (by decide)⟩

/-- C5: in the `part_003` orchestrator, a story URL never invokes the
fast (single HTTP GET) extractor; for a validated non-story URL on a
cache miss the fast extractor is attempted first; and a fast-extractor
failure is swallowed — the call's outcome is exactly the browser
phase's outcome, so the fast error itself never reaches the caller. -/
theorem strategy_order (url : String) (now : Nat) (normalize : String → String)
    (fastNet : Option FastPage) (env : Option PageData) (cache : MetaCache) :
    (detectContentType url = .story →
      (extractMetadataV3 url now normalize fastNet env cache).fastCalled = false) ∧
    (validateInstagramUrl url = true →
      (∀ en, mapGet cache (normalize url) = some en →
        ¬(now - en.timestamp < CACHE_TTL)) →
      detectContentType url ≠ .story →
      (extractMetadataV3 url now normalize fastNet env cache).fastCalled = true) ∧
    (∀ e, validateInstagramUrl url = true →
      (∀ en, mapGet cache (normalize url) = some en →
        ¬(now - en.timestamp < CACHE_TTL)) →
      detectContentType url ≠ .story →
      extractMetadataFast url fastNet = .error e →
      extractMetadataV3 url now normalize fastNet env cache =
        v3BrowserPhase url (normalize url) now (detectContentType url) env cache true) := by
  refine ⟨?_, ?_, ?_⟩
  · intro hs
    unfold extractMetadataV3
    by_cases hv : validateInstagramUrl url
    · simp only [hv, eq_self_iff_true, if_true, hs]
      cases hc : mapGet cache (normalize url) with
      | none => simp [hc, v3BrowserPhase_fastCalled]
      | some en =>
        by_cases htt : now - en.timestamp < CACHE_TTL
        · simp [hc, htt]
        · simp [hc, htt, v3BrowserPhase_fastCalled]
    · simp only [Bool.not_eq_true] at hv
      simp [hv]
  · intro hv hmiss hs
    rw [extractMetadataV3_miss url now normalize fastNet env cache hv hmiss]
    rw [if_neg hs]
    cases hf : extractMetadataFast url fastNet with
    | ok m => simp
    | error e => simp [v3BrowserPhase_fastCalled]
  · intro e hv hmiss hs hf
    rw [extractMetadataV3_miss url now normalize fastNet env cache hv hmiss]
    rw [if_neg hs, hf]

/-- Witness for C5: a reel URL whose fast HTTP page holds no video
fails fast extraction, and the call's outcome is the browser phase's
outcome (which here succeeds from a rendered video element). -/
theorem strategy_order_check :
    (validateInstagramUrl "https://instagram.com/reel/AB" = true ∧
      detectContentType "https://instagram.com/reel/AB" ≠ .story ∧
      extractMetadataFast "https://instagram.com/reel/AB"
        (some ⟨"", "", "", "", [], []⟩) = .error .noVideo) ∧
    extractMetadataV3 "https://instagram.com/reel/AB" 0 id
        (some ⟨"", "", "", "", [], []⟩)
        (some ⟨"", "", "", "", "", ["v1.mp4"], [], [], []⟩) [] =
      v3BrowserPhase "https://instagram.com/reel/AB"
        (id "https://instagram.com/reel/AB") 0
        (detectContentType "https://instagram.com/reel/AB")
        (some ⟨"", "", "", "", "", ["v1.mp4"], [], [], []⟩) [] true :=
  ⟨⟨by decide, by decide, rfl⟩,
    (strategy_order "https://instagram.com/reel/AB" 0 id
        (some ⟨"", "", "", "", [], []⟩)
        (some ⟨"", "", "", "", "", ["v1.mp4"], [], [], []⟩) []).2.2
      .noVideo (by decide) (fun en h => by simp [mapGet] at h) (by decide) rfl⟩

/-- C1 (code bug in variant 2): for a reel URL with no extractable
video anywhere, the inner selection does throw, but the catch block of
`src/server/services/instagram.ts` (lines 787-799) swallows the error
for non-story types and the call returns placeholder metadata whose
media list is an Unsplash image — image media for a reel, instead of a
propagated failure. -/
theorem reel_failure_returns_placeholder_image :
    (extractMetadataV2 "https://instagram.com/reel/ABC" 0
        (some ⟨"", "", "", "", "", [], [], [], []⟩) ⟨0, 0, 0, 0, false, 0⟩ []).result =
      .ok (fallbackMetadataV2 .reel ⟨0, 0, 0, 0, false, 0⟩) ∧
    (fallbackMetadataV2 .reel ⟨0, 0, 0, 0, false, 0⟩).mediaUrls = [unsplashImage] ∧
    detectContentType "https://instagram.com/reel/ABC" = .reel ∧
    innerV2 "https://instagram.com/reel/ABC" .reel
      (some ⟨"", "", "", "", "", [], [], [], []⟩) ⟨0, 0, 0, 0, false, 0⟩ =
      .error .noVideo :=
  ⟨rfl, rfl, by decide, rfl⟩

/-- C2 (code bug in variant 2): the success path stores the random
`Math.random() > 0.7 ? … : 1` expression in `mediaCount` (lines
750-761), so with two extracted video URLs and a low random draw the
returned metadata has `mediaCount = 1` while `mediaUrls` has length 2 —
contradicting `mediaCount = mediaUrls.length` (which the variant's own
success log and both `part_003` builders use). -/
theorem mediaCount_diverges_from_mediaUrls :
    (extractMetadataV2 "https://instagram.com/reel/ABC" 0
        (some ⟨"", "", "", "", "",
          ["https://a.cdninstagram.com/v1.mp4", "https://a.cdninstagram.com/v2.mp4"],
          [], [], []⟩) ⟨0, 0, 0, 0, false, 0⟩ []).result =
      .ok (buildMetadataV2 .reel "reel" "" ""
        ["https://a.cdninstagram.com/v1.mp4", "https://a.cdninstagram.com/v2.mp4"]
        ⟨0, 0, 0, 0, false, 0⟩) ∧
    (buildMetadataV2 .reel "reel" "" ""
        ["https://a.cdninstagram.com/v1.mp4", "https://a.cdninstagram.com/v2.mp4"]
        ⟨0, 0, 0, 0, false, 0⟩).mediaUrls.length = 2 ∧
    (buildMetadataV2 .reel "reel" "" ""
        ["https://a.cdninstagram.com/v1.mp4", "https://a.cdninstagram.com/v2.mp4"]
        ⟨0, 0, 0, 0, false, 0⟩).mediaCount = some 1 :=
  ⟨rfl, rfl, rfl⟩

/-- C10: MemStorage.updateDownload returns undefined and leaves the
store untouched when the id is absent; when present, the returned and
stored record take each supplied field's new value and keep the
previous value of every unsupplied field, and no other record in the
store is modified. -/
theorem updateDownload_frame (store : DownloadStore) (id : String) (u : DownloadPatch) :
    (mapGet store id = none → updateDownload store id u = (none, store)) ∧
    (∀ d, mapGet store id = some d →
      (updateDownload store id u).1 = some (applySpread d u) ∧
      mapGet (updateDownload store id u).2 id = some (applySpread d u) ∧
      (∀ k, k ≠ id → mapGet (updateDownload store id u).2 k = mapGet store k) ∧
      (∀ v, u.url = some v → (applySpread d u).url = v) ∧
      (u.url = none → (applySpread d u).url = d.url) ∧
      (∀ v, u.type = some v → (applySpread d u).type = v) ∧
      (u.type = none → (applySpread d u).type = d.type) ∧
      (∀ v, u.status = some v → (applySpread d u).status = v) ∧
      (u.status = none → (applySpread d u).status = d.status) ∧
      (∀ v, u.metadata = some v → (applySpread d u).metadata = v) ∧
      (u.metadata = none → (applySpread d u).metadata = d.metadata) ∧
      (∀ v, u.filePath = some v → (applySpread d u).filePath = v) ∧
      (u.filePath = none → (applySpread d u).filePath = d.filePath) ∧
      (∀ v, u.fileSize = some v → (applySpread d u).fileSize = v) ∧
      (u.fileSize = none → (applySpread d u).fileSize = d.fileSize) ∧
      (∀ v, u.downloadedAt = some v → (applySpread d u).downloadedAt = v) ∧
      (u.downloadedAt = none → (applySpread d u).downloadedAt = d.downloadedAt) ∧
      (∀ v, u.createdAt = some v → (applySpread d u).createdAt = v) ∧
      (u.createdAt = none → (applySpread d u).createdAt = d.createdAt)) := by
  constructor
  · intro h
    unfold updateDownload
    rw [h]
  · intro d hd
    refine ⟨?_, ?_, ?_, ?_, ?_, ?_, ?_, ?_, ?_, ?_, ?_, ?_, ?_, ?_, ?_, ?_, ?_, ?_, ?_⟩
    · unfold updateDownload; rw [hd]
    · unfold updateDownload; rw [hd]; exact mapGet_mapSet_self store id _
    · intro k hk
      unfold updateDownload
      rw [hd]
      exact mapGet_mapSet_ne store id k _ (Ne.symm hk)
    all_goals first
      | (intro v hv; simp [applySpread, hv])
      | (intro hv; simp [applySpread, hv])

/-- Witness for C10: updating the status of one of two stored downloads
changes exactly that record's supplied field. -/
theorem updateDownload_frame_check :
    (mapGet [("a", Download.mk "a" "u1" "post" "pending" none none none none none),
        ("b", Download.mk "b" "u2" "reel" "pending" none none none none none)] "a" =
      some (Download.mk "a" "u1" "post" "pending" none none none none none)) ∧
    (updateDownload
        [("a", Download.mk "a" "u1" "post" "pending" none none none none none),
         ("b", Download.mk "b" "u2" "reel" "pending" none none none none none)] "a"
        { status := some "completed" }).1 =
      some (applySpread (Download.mk "a" "u1" "post" "pending" none none none none none)
        { status := some "completed" }) ∧
    mapGet (updateDownload
        [("a", Download.mk "a" "u1" "post" "pending" none none none none none),
         ("b", Download.mk "b" "u2" "reel" "pending" none none none none none)] "a"
        { status := some "completed" }).2 "b" =
      some (Download.mk "b" "u2" "reel" "pending" none none none none none) :=
  ⟨by decide,
    ((updateDownload_frame
        [("a", Download.mk "a" "u1" "post" "pending" none none none none none),
         ("b", Download.mk "b" "u2" "reel" "pending" none none none none none)] "a"
        { status := some "completed" }).2
      (Download.mk "a" "u1" "post" "pending" none none none none none) (by decide)).1,
    by
      have h := ((updateDownload_frame
          [("a", Download.mk "a" "u1" "post" "pending" none none none none none),
           ("b", Download.mk "b" "u2" "reel" "pending" none none none none none)] "a"
          { status := some "completed" }).2
        (Download.mk "a" "u1" "post" "pending" none none none none none)
        (by decide)).2.2.1 "b" (by decide)
      rw [h]
      decide⟩

end InstaDL
